import Mathlib

/-!
Verification of the `convex_flutter` Rust bridge (src/rust/src/lib.rs)
against its natural-language specification.

The file shallowly embeds the code that the claims are about:
the JWT expiry decoder `decode_jwt_expiry`, the refresh-sleep computation
of `set_auth_with_refresh`, the auth refresh loop itself, the subscription
task loop of `internal_subscribe`, the `SubscriptionHandle::cancel` /
`AuthHandle::dispose` oneshot-channel handling, the connection-state relay
of `on_websocket_state_change`, and `handle_direct_function_result`.
External crates (`serde_json`, `base64`) are modelled at their documented
behaviour where the code calls into them.
-/

namespace ConvexFlutter

/-! ### JSON values as produced by the convex-to-serde conversion
(`serde_json::Value::from(value)`); floats are outside the claims. -/

inductive Json where
  | null : Json
  | bool (b : Bool) : Json
  | int (i : Int) : Json
  | str (s : String) : Json
  | arr (xs : List Json) : Json
  | obj (fields : List (String × Json)) : Json

/-- One lowercase hex digit, as `serde_json` prints in `\u00XX` escapes. -/
def hexDigit (n : Nat) : Char :=
  if n < 10 then Char.ofNat (48 + n) else Char.ofNat (87 + n)

/-- Escaping of one character inside a JSON string, following
`serde_json`'s serializer: quote and backslash are escaped, control
characters use the short escapes where they exist and `\u00XX` otherwise,
everything else is emitted verbatim. -/
def escapeChar (c : Char) : String :=
  if c = '"' then "\\\""
  else if c = '\\' then "\\\\"
  else if c = Char.ofNat 8 then "\\b"
  else if c = Char.ofNat 9 then "\\t"
  else if c = Char.ofNat 10 then "\\n"
  else if c = Char.ofNat 12 then "\\f"
  else if c = Char.ofNat 13 then "\\r"
  else if c.toNat < 32 then
    String.mk ['\\', 'u', '0', '0', hexDigit (c.toNat / 16), hexDigit (c.toNat % 16)]
  else String.mk [c]

def escapeString (s : String) : String :=
  String.join (s.data.map escapeChar)

mutual

/-- Compact serialization, modelling `serde_json::to_string`. -/
def serializeJson : Json → String
  | .null => "null"
  | .bool true => "true"
  | .bool false => "false"
  | .int i => toString i
  | .str s => "\"" ++ escapeString s ++ "\""
  | .arr xs => "[" ++ serializeElems xs ++ "]"
  | .obj fs => "\x7b" ++ serializeFields fs ++ "\x7d"

def serializeElems : List Json → String
  | [] => ""
  | [x] => serializeJson x
  | x :: y :: xs => serializeJson x ++ "," ++ serializeElems (y :: xs)

def serializeFields : List (String × Json) → String
  | [] => ""
  | [(k, v)] => "\"" ++ escapeString k ++ "\":" ++ serializeJson v
  | (k, v) :: f :: fs =>
      "\"" ++ escapeString k ++ "\":" ++ serializeJson v ++ "," ++
        serializeFields (f :: fs)

end

/-! ### `decode_jwt_expiry` (lib.rs lines 56-78)

`token.split('.')` from Rust is embedded as `splitDot` on the character
list; `base64::engine::general_purpose::URL_SAFE_NO_PAD.decode` as
`b64urlDecode` (URL-safe alphabet, no padding accepted, canonical trailing
bits required, as that engine is configured); `serde_json::from_slice`
into `struct JwtClaims \x7b exp: u64 \x7d` as a byte-level JSON parse
followed by `claimsExp` (unknown fields allowed, duplicate or missing
`exp` rejected, `exp` must be a non-negative integral number below 2^64).
-/

/-- Rust `str::split('.')`: boundaries at every dot, empty pieces kept. -/
def splitDot : List Char → List (List Char)
  | [] => [[]]
  | c :: cs =>
      match splitDot cs with
      | [] => [[c]]
      | h :: t => if c = '.' then [] :: h :: t else (c :: h) :: t

/-- Value of one character of the URL-safe base64 alphabet. -/
def b64Val (c : Char) : Option Nat :=
  if 'A' ≤ c ∧ c ≤ 'Z' then some (c.toNat - 65)
  else if 'a' ≤ c ∧ c ≤ 'z' then some (c.toNat - 71)
  else if '0' ≤ c ∧ c ≤ '9' then some (c.toNat + 4)
  else if c = '-' then some 62
  else if c = '_' then some 63
  else none

/-- Reassemble 6-bit values into bytes, processing quads; a trailing group
of one symbol is invalid, trailing groups of two or three symbols must have
zero padding bits (the engine rejects non-canonical trailing bits). -/
def b64Bytes : List Nat → Option (List Nat)
  | [] => some []
  | [_] => none
  | [a, b] => if b % 16 = 0 then some [a * 4 + b / 16] else none
  | [a, b, c] =>
      if c % 4 = 0 then some [a * 4 + b / 16, b % 16 * 16 + c / 4] else none
  | a :: b :: c :: d :: rest =>
      (b64Bytes rest).map
        (fun tl => (a * 4 + b / 16) :: (b % 16 * 16 + c / 4) :: (c % 4 * 64 + d) :: tl)

/-- URL-safe, no-padding base64 decoding of a segment to bytes. -/
def b64urlDecode (cs : List Char) : Option (List Nat) :=
  (cs.mapM b64Val).bind b64Bytes

/-! #### Byte-level JSON parsing (modelling `serde_json::from_slice`) -/

/-- Parsed JSON shape; numbers record sign, integer value of the integral
part, and whether the literal was integral (no fraction, no exponent) —
exactly what deciding `u64` acceptance needs. -/
inductive J where
  | null : J
  | bool (b : Bool) : J
  | num (neg : Bool) (val : Nat) (integral : Bool) : J
  | str (cs : List Nat) : J
  | arr (xs : List J) : J
  | obj (fields : List (List Nat × J)) : J

/-- JSON whitespace: space, tab, line feed, carriage return. -/
def skipWs : List Nat → List Nat
  | b :: bs => if b = 32 ∨ b = 9 ∨ b = 10 ∨ b = 13 then skipWs bs else b :: bs
  | [] => []

def isDigit (b : Nat) : Bool := 48 ≤ b ∧ b ≤ 57

/-- Longest digit run at the front, with the remainder. -/
def takeDigits : List Nat → List Nat × List Nat
  | b :: bs =>
      if isDigit b then
        let (ds, rest) := takeDigits bs
        (b :: ds, rest)
      else ([], b :: bs)
  | [] => ([], [])

def digitsVal (ds : List Nat) : Nat :=
  ds.foldl (fun acc d => acc * 10 + (d - 48)) 0

/-- Short escape codes after a backslash in a JSON string. -/
def escVal (b : Nat) : Option Nat :=
  if b = 34 then some 34
  else if b = 92 then some 92
  else if b = 47 then some 47
  else if b = 98 then some 8
  else if b = 102 then some 12
  else if b = 110 then some 10
  else if b = 114 then some 13
  else if b = 116 then some 9
  else none

def hexVal (b : Nat) : Option Nat :=
  if 48 ≤ b ∧ b ≤ 57 then some (b - 48)
  else if 97 ≤ b ∧ b ≤ 102 then some (b - 87)
  else if 65 ≤ b ∧ b ≤ 70 then some (b - 55)
  else none

/-- Body of a JSON string after the opening quote: returns the decoded
code units and the input after the closing quote. -/
def parseStringBody : List Nat → Option (List Nat × List Nat)
  | [] => none
  | b :: bs =>
      if b = 34 then some ([], bs)
      else if b = 92 then
        match bs with
        | [] => none
        | e :: bs2 =>
            if e = 117 then
              match bs2 with
              | h1 :: h2 :: h3 :: h4 :: bs3 => do
                  let v1 ← hexVal h1
                  let v2 ← hexVal h2
                  let v3 ← hexVal h3
                  let v4 ← hexVal h4
                  let (cs, rest) ← parseStringBody bs3
                  pure ((((v1 * 16 + v2) * 16 + v3) * 16 + v4) :: cs, rest)
              | _ => none
            else do
              let v ← escVal e
              let (cs, rest) ← parseStringBody bs2
              pure (v :: cs, rest)
      else if b < 32 then none
      else do
        let (cs, rest) ← parseStringBody bs
        pure (b :: cs, rest)

/-- JSON number: optional minus, integral part without leading zeros,
optional fraction, optional exponent. -/
def parseNumber (bs : List Nat) : Option (J × List Nat) := do
  let (neg, bs1) :=
    match bs with
    | 45 :: rest => (true, rest)
    | _ => (false, bs)
  let (ds, bs2) := takeDigits bs1
  match ds with
  | [] => none
  | d0 :: drest =>
    if d0 = 48 ∧ drest ≠ [] then none
    else
      let (hasFrac, bs3) ←
        match bs2 with
        | 46 :: rest =>
            let (fds, rest2) := takeDigits rest
            if fds = [] then none else some (true, rest2)
        | _ => some (false, bs2)
      let (hasExp, bs4) ←
        match bs3 with
        | e :: rest =>
            if e = 101 ∨ e = 69 then
              let rest1 :=
                match rest with
                | 43 :: r => r
                | 45 :: r => r
                | r => r
              let (eds, rest2) := takeDigits rest1
              if eds = [] then none else some (true, rest2)
            else some (false, bs3)
        | [] => some (false, bs3)
      pure (J.num neg (digitsVal ds) (!hasFrac && !hasExp), bs4)

mutual

/-- One JSON value at the front of the input (no leading whitespace);
fuelled recursion, mirroring the bounded recursion depth of the real
parser. -/
def parseValue : Nat → List Nat → Option (J × List Nat)
  | 0, _ => none
  | _ + 1, [] => none
  | fuel + 1, b :: bs =>
      if b = 110 then
        match bs with
        | 117 :: 108 :: 108 :: rest => some (J.null, rest)
        | _ => none
      else if b = 116 then
        match bs with
        | 114 :: 117 :: 101 :: rest => some (J.bool true, rest)
        | _ => none
      else if b = 102 then
        match bs with
        | 97 :: 108 :: 115 :: 101 :: rest => some (J.bool false, rest)
        | _ => none
      else if b = 34 then
        (parseStringBody bs).map (fun p => (J.str p.1, p.2))
      else if b = 45 ∨ isDigit b then
        parseNumber (b :: bs)
      else if b = 91 then
        match skipWs bs with
        | 93 :: rest => some (J.arr [], rest)
        | bs1 => parseElems fuel bs1
      else if b = 123 then
        match skipWs bs with
        | 125 :: rest => some (J.obj [], rest)
        | bs1 => parseFields fuel bs1
      else none

/-- Non-empty comma-separated array elements up to the closing bracket. -/
def parseElems : Nat → List Nat → Option (J × List Nat)
  | 0, _ => none
  | fuel + 1, bs => do
      let (v, rest) ← parseValue fuel bs
      match skipWs rest with
      | 44 :: rest2 =>
          match parseElems fuel (skipWs rest2) with
          | some (J.arr xs, rest3) => some (J.arr (v :: xs), rest3)
          | _ => none
      | 93 :: rest2 => some (J.arr [v], rest2)
      | _ => none

/-- Non-empty comma-separated object members up to the closing brace. -/
def parseFields : Nat → List Nat → Option (J × List Nat)
  | 0, _ => none
  | fuel + 1, bs =>
      match bs with
      | 34 :: bs1 => do
          let (key, rest) ← parseStringBody bs1
          match skipWs rest with
          | 58 :: rest2 => do
              let (v, rest3) ← parseValue fuel (skipWs rest2)
              match skipWs rest3 with
              | 44 :: rest4 =>
                  match parseFields fuel (skipWs rest4) with
                  | some (J.obj fs, rest5) => some (J.obj ((key, v) :: fs), rest5)
                  | _ => none
              | 125 :: rest4 => some (J.obj [(key, v)], rest4)
              | _ => none
          | _ => none
      | _ => none

end

/-- Full-input parse: one value surrounded by optional whitespace. -/
def parseJsonBytes (bs : List Nat) : Option J :=
  match parseValue (bs.length + 1) (skipWs bs) with
  | some (v, rest) => if skipWs rest = [] then some v else none
  | none => none

/-- Code units of the field name `exp`. -/
def expKey : List Nat := [101, 120, 112]

/-- Deserialization into `JwtClaims \x7b exp: u64 \x7d`: the payload must
be an object with exactly one `exp` member whose value is a non-negative
integral number below 2^64; other members are ignored. -/
def claimsExp : J → Option Nat
  | .obj fs =>
      match fs.filter (fun f => f.1 = expKey) with
      | [(_, J.num neg v integral)] =>
          if neg = false ∧ integral = true ∧ v < 18446744073709551616 then
            some v
          else none
      | _ => none
  | _ => none

/-- `serde_json::from_slice::<JwtClaims>` on the decoded payload bytes. -/
def jwtExpOfBytes (bs : List Nat) : Option Nat :=
  (parseJsonBytes bs).bind claimsExp

/-- `decode_jwt_expiry` (lib.rs lines 64-78): split on dots, require three
segments, base64url-decode the middle one, read the `exp` claim. -/
def decode_jwt_expiry (token : String) : Option Nat :=
  match splitDot token.data with
  | [_, payload, _] =>
      match b64urlDecode payload with
      | some bytes => jwtExpOfBytes bytes
      | none => none
  | _ => none

/-! ### Call results and `handle_direct_function_result` (lib.rs 34-46, 637-647) -/

/-- `ClientError` (lib.rs lines 36-46). -/
inductive ClientError where
  | internalError (msg : String) : ClientError
  | convexError (data : String) : ClientError
  | serverError (msg : String) : ClientError

/-- `convex::FunctionResult`, with payloads already converted to
`serde_json::Value` shape (that conversion is the collaborator's). -/
inductive FunctionResult where
  | value (v : Json) : FunctionResult
  | errorMessage (msg : String) : FunctionResult
  | convexError (message : String) (data : Json) : FunctionResult

/-- `handle_direct_function_result` (lib.rs lines 638-647): a success value
is serialized to a string, a structured Convex error carries its serialized
data, a server error message carries the message. -/
def handle_direct_function_result (result : FunctionResult) :
    Except ClientError String :=
  match result with
  | .value v => .ok (serializeJson v)
  | .convexError _ data => .error (.convexError (serializeJson data))
  | .errorMessage msg => .error (.serverError msg)

/-! ### Oneshot-channel handles (lib.rs 125-176)

A handle holds `Arc<Mutex<Option<Sender<()>>>>`; the paired receiver lives
inside the spawned task and is dropped when that task exits. The model
keeps the two observable booleans: whether the sender is still in the
mutex, and whether the receiver is still alive. `futures` oneshot `send`
succeeds exactly when the receiver has not been dropped. A returned `none`
models a panic. -/

/-- `futures::channel::oneshot::Sender::send`: `Err` once the receiver is
dropped. -/
def oneshotSend (receiverAlive : Bool) : Except Unit Unit :=
  if receiverAlive then .ok () else .error ()

/-- `SubscriptionHandle` state (lib.rs lines 127-129). -/
structure SubscriptionHandle where
  senderPresent : Bool
  receiverAlive : Bool
deriving DecidableEq

/-- `SubscriptionHandle::cancel` (lib.rs lines 139-145): take the sender
out of the mutex if still there, then `send(()).unwrap()` — the unwrap
panics (`none`) when the send fails. -/
def SubscriptionHandle.cancel (h : SubscriptionHandle) :
    Option SubscriptionHandle :=
  if h.senderPresent then
    match oneshotSend h.receiverAlive with
    | .ok _ => some ⟨false, h.receiverAlive⟩
    | .error _ => none
  else some h

/-- `AuthHandle`'s channel state (lib.rs lines 150-153); the shared
authenticated flag is modelled with the refresh-loop state below. -/
structure AuthHandle where
  senderPresent : Bool
  receiverAlive : Bool
deriving DecidableEq

/-- `AuthHandle::dispose` (lib.rs lines 165-169): take the sender out of
the mutex if still there, send, and discard the send result
(`let _ = sender.send(());`), so a dead receiver is not an error. -/
def AuthHandle.dispose (h : AuthHandle) : Option AuthHandle :=
  if h.senderPresent then
    match oneshotSend h.receiverAlive with
    | .ok _ => some ⟨false, h.receiverAlive⟩
    | .error _ => some ⟨false, h.receiverAlive⟩
  else some h

/-! ### The subscription task loop of `internal_subscribe` (lib.rs 371-408)

Each `select_biased!` evaluation polls `subscription.next()` FIRST and the
cancellation receiver second, so a simultaneously ready update wins the
race. An iteration is described by what is ready when the task polls. -/

/-- Readiness of one `select_biased!` evaluation in the subscription task:
`upd = some (some r)` — the stream yielded `r`; `upd = some none` — the
stream ended; `upd = none` — no update ready. `cancelReady` tells whether
the cancellation signal is ready. -/
structure SubIter where
  upd : Option (Option FunctionResult)
  cancelReady : Bool

/-- Callback deliveries a subscription task performs. -/
inductive SubEvent where
  | onUpdate (value : String) : SubEvent
  | onError (message : String) (value : Option String) : SubEvent

/-- Result-variant handling of one received update (lib.rs lines 384-400):
a value is serialized to `on_update`, an error message goes to `on_error`
without data, a Convex error goes to `on_error` with serialized data. -/
def deliver : FunctionResult → SubEvent
  | .value v => .onUpdate (serializeJson v)
  | .errorMessage msg => .onError msg none
  | .convexError message data => .onError message (some (serializeJson data))

/-- The subscription task loop over a script of poll outcomes: returns the
deliveries made and whether the task terminated (broke out of the loop).
The update arm is matched first, as `select_biased!` lists it first; a
stream end breaks silently; the cancel arm breaks with no delivery. An
iteration where nothing is ready leaves the task waiting. -/
def runSubLoop : List SubIter → List SubEvent × Bool
  | [] => ([], false)
  | it :: rest =>
      match it.upd with
      | some (some r) =>
          let (evs, ended) := runSubLoop rest
          (deliver r :: evs, ended)
      | some none => ([], true)
      | none => if it.cancelReady then ([], true) else ([], false)

/-! ### The auth refresh loop of `set_auth_with_refresh` (lib.rs 486-617)

Both `select_biased!` sites in the loop list `cancel_fut` FIRST, so
cancellation wins a simultaneous race against a completed fetch and
against a completed sleep. One loop iteration is described by what is
ready at each of the two selects, the fetched token, and the wall clock
(`SystemTime::now` in seconds) read after the fetch. -/

/-- One iteration of the refresh loop as seen from its two selects. -/
structure AuthIter where
  cancelAtFetch : Bool
  token : Option String
  now : Nat
  cancelAtSleep : Bool

/-- Externally visible actions of the refresh loop. -/
inductive AuthEvent where
  | fetchStart : AuthEvent
  | setAuth (token : Option String) : AuthEvent
  | authChange (b : Bool) : AuthEvent
  | sleep (secs : Nat) : AuthEvent
deriving DecidableEq

/-- The loop's local `was_authenticated` and the shared atomic flag read
by `AuthHandle::is_authenticated`. -/
structure AuthState where
  wasAuthenticated : Bool
  isAuthenticated : Bool
deriving DecidableEq

/-- `AuthHandle::is_authenticated` (lib.rs lines 173-175): a `SeqCst` load
of the shared flag. -/
def AuthHandle.is_authenticated (st : AuthState) : Bool :=
  st.isAuthenticated

/-- The sleep computation of lib.rs lines 556-568: with a decodable expiry
`exp`, refresh at `exp` minus the 60-second buffer (saturating), sleeping
`refresh_at - now` if that lies ahead and the 5-second floor otherwise;
with an undecodable token, the 300-second default. -/
def sleepSecs (token : String) (now : Nat) : Nat :=
  match decode_jwt_expiry token with
  | some exp =>
      let refreshAt := exp - 60
      if refreshAt > now then refreshAt - now else 5
  | none => 300

/-- The refresh loop (lib.rs lines 508-614) over a script of iterations:
returns the final state, the emitted actions, and whether the loop broke.
Per iteration: the fetch is started (`fetchStart`), then the first select
polls cancellation first — on cancellation the loop clears the remote auth,
fires the auth-change callback with `false` if `was_authenticated`, and
breaks, leaving the atomic flag untouched. With a token, auth is applied;
on the first application `was_authenticated` and the flag are set and the
callback fires with `true`; then the computed sleep starts and the second
select again polls cancellation first, with the same teardown. With no
token, auth is cleared, and only if `was_authenticated` the flag is
cleared and the callback fires with `false`; the loop breaks. -/
def runAuthLoop (st : AuthState) :
    List AuthIter → AuthState × List AuthEvent × Bool
  | [] => (st, [], false)
  | it :: rest =>
      if it.cancelAtFetch then
        (st,
         [.fetchStart, .setAuth none] ++
           (if st.wasAuthenticated then [.authChange false] else []),
         true)
      else
        match it.token with
        | some tok =>
            let st1 : AuthState :=
              ⟨true, if st.wasAuthenticated then st.isAuthenticated else true⟩
            let evs1 : List AuthEvent :=
              [.fetchStart, .setAuth (some tok)] ++
                (if st.wasAuthenticated then [] else [.authChange true]) ++
                [.sleep (sleepSecs tok it.now)]
            if it.cancelAtSleep then
              (st1, evs1 ++ [.setAuth none, .authChange false], true)
            else
              let (st2, evs2, ended) := runAuthLoop st1 rest
              (st2, evs1 ++ evs2, ended)
        | none =>
            (⟨st.wasAuthenticated,
              if st.wasAuthenticated then false else st.isAuthenticated⟩,
             [.fetchStart, .setAuth none] ++
               (if st.wasAuthenticated then [.authChange false] else []),
             true)

/-! ### The connection-state relay of `on_websocket_state_change`
(lib.rs 250-287)

A bounded `tokio::sync::mpsc` channel of capacity 10 sits between the
collaborator's event source and a forwarding task that receives one event
at a time and awaits the callback's completion before receiving the next.
The relay is modelled as a small-step system over an arbitrary
interleaving of producer sends, receives, and callback completions. -/

/-- `convex::WebSocketState` as emitted by the collaborator. -/
inductive WsState where
  | connected : WsState
  | connecting : WsState
deriving DecidableEq

/-- `WebSocketConnectionState` as handed to the Dart callback. -/
inductive WsConnState where
  | connected : WsConnState
  | connecting : WsConnState
deriving DecidableEq

/-- `From<ConvexWebSocketState> for WebSocketConnectionState`
(lib.rs lines 93-100). -/
def wsConvert : WsState → WsConnState
  | .connected => .connected
  | .connecting => .connecting

/-- Relay state: events the collaborator has not yet pushed into the
channel, the channel buffer (capacity 10), the event currently being
delivered (the forwarding task awaits its callback), and the completed
deliveries in order. -/
structure RelayState where
  pending : List WsState
  queue : List WsState
  inFlight : Option WsState
  delivered : List WsConnState

/-- The three kinds of steps the relay system can take. -/
inductive RelayStep where
  | send : RelayStep
  | recv : RelayStep
  | complete : RelayStep

/-- One step: `send` moves the next collaborator event into the channel
only if the buffer holds fewer than 10 events (backpressure, no loss);
`recv` lets the forwarding task pull the front event only when no delivery
is in flight (serialized delivery); `complete` finishes the in-flight
callback, recording the converted event. Steps that do not apply leave the
state unchanged (the actor blocks). -/
def relayStep (s : RelayState) : RelayStep → RelayState
  | .send =>
      match s.pending with
      | [] => s
      | e :: rest =>
          if s.queue.length < 10 then ⟨rest, s.queue ++ [e], s.inFlight, s.delivered⟩
          else s
  | .recv =>
      match s.inFlight with
      | some _ => s
      | none =>
          match s.queue with
          | [] => s
          | e :: q => ⟨s.pending, q, some e, s.delivered⟩
  | .complete =>
      match s.inFlight with
      | none => s
      | some e => ⟨s.pending, s.queue, none, s.delivered ++ [wsConvert e]⟩

/-- Run the relay under a schedule of steps. -/
def runRelay (s : RelayState) (sched : List RelayStep) : RelayState :=
  sched.foldl relayStep s

/-- Initial relay state for a given collaborator event sequence. -/
def relayInit (events : List WsState) : RelayState :=
  ⟨events, [], none, []⟩

/-- A schedule that drives each of `n` events through send, receive, and
callback completion. -/
def fullSched (n : Nat) : List RelayStep :=
  (List.replicate n [RelayStep.send, RelayStep.recv, RelayStep.complete]).flatten

/-- The at-most-one event currently being delivered, as a list. -/
def inFlightList : Option WsState → List WsState
  | none => []
  | some e => [e]

/-- Relay soundness invariant: the deliveries made so far, followed by the
conversions of everything still in flight, buffered, or pending, are
exactly the conversions of the original event sequence. -/
def relayGood (events : List WsState) (s : RelayState) : Prop :=
  s.delivered ++ (inFlightList s.inFlight ++ s.queue ++ s.pending).map wsConvert
    = events.map wsConvert

/-! ## Theorems -/

/-- Every relay step preserves the relay soundness invariant. -/
theorem relayStep_preserves {events : List WsState} {s : RelayState}
    (step : RelayStep) (hgood : relayGood events s) :
    relayGood events (relayStep s step) := by
  rcases s with ⟨p, q, f, d⟩
  cases step with
  | send =>
      cases p with
      | nil => simpa [relayStep] using hgood
      | cons e rest =>
          by_cases hq : q.length < 10
          · simp only [relayGood, relayStep, hq, if_true] at hgood ⊢
            simpa [List.append_assoc] using hgood
          · simpa [relayStep, hq] using hgood
  | recv =>
      cases f with
      | some e => simpa [relayStep] using hgood
      | none =>
          cases q with
          | nil => simpa [relayStep] using hgood
          | cons e qrest =>
              simp only [relayGood, relayStep] at hgood ⊢
              simpa [inFlightList, List.append_assoc] using hgood
  | complete =>
      cases f with
      | none => simpa [relayStep] using hgood
      | some e =>
          simp only [relayGood, relayStep] at hgood ⊢
          simpa [inFlightList, List.append_assoc] using hgood

/-- Running any schedule preserves the relay soundness invariant. -/
theorem runRelay_preserves {events : List WsState} (sched : List RelayStep)
    {s : RelayState} (hgood : relayGood events s) :
    relayGood events (runRelay s sched) := by
  induction sched generalizing s with
  | nil => exact hgood
  | cons a t ih => exact ih (relayStep_preserves a hgood)

/-- The canonical send/receive/complete schedule drains all pending events
into deliveries, in order. -/
theorem runRelay_full (p : List WsState) :
    ∀ d : List WsConnState,
      runRelay ⟨p, [], none, d⟩ (fullSched p.length) =
        ⟨[], [], none, d ++ p.map wsConvert⟩ := by
  induction p with
  | nil => intro d; simp [fullSched, runRelay]
  | cons e rest ih =>
      intro d
      have hsched : fullSched (e :: rest).length =
          [RelayStep.send, RelayStep.recv, RelayStep.complete] ++
            fullSched rest.length := by
        simp [fullSched, List.replicate_succ]
      have hsteps :
          runRelay (⟨e :: rest, [], none, d⟩ : RelayState)
              [RelayStep.send, RelayStep.recv, RelayStep.complete] =
            ⟨rest, [], none, d ++ [wsConvert e]⟩ := rfl
      rw [hsched]
      show runRelay _ (_ ++ _) = _
      rw [runRelay, List.foldl_append]
      have := ih (d ++ [wsConvert e])
      simpa [runRelay, List.append_assoc] using this

/-- Claim C9: for every sequence of connection-state events emitted by the
collaborator under non-overflowing load, the registered state-change
callback observes exactly those events in the identical order through the
bounded capacity-10 queue, each delivery awaited to completion before the
next event is pulled: under any interleaving the deliveries made are a
prefix of the converted event sequence, and the schedule that lets every
event flow through delivers them all. Serialization is structural: `recv`
only fires with no delivery in flight, and at most one delivery is ever in
flight. -/
theorem C9_relay_ordered_delivery :
    ∀ (events : List WsState) (sched : List RelayStep),
      (∃ rest, (runRelay (relayInit events) sched).delivered ++ rest =
        events.map wsConvert) ∧
      (runRelay (relayInit events) (fullSched events.length)).delivered =
        events.map wsConvert := by
  intro events sched
  constructor
  · have hinit : relayGood events (relayInit events) := by
      simp [relayGood, relayInit, inFlightList]
    exact ⟨_, runRelay_preserves sched hinit⟩
  · have h := runRelay_full events []
    simp [relayInit, h]

/-- Claim C7: `handle_direct_function_result` keeps the three result kinds
distinct — a success value becomes the serialized payload string, a
structured application error becomes `ConvexError` carrying the serialized
caller-defined data, and a message-carrying server failure becomes
`ServerError` carrying the message. -/
theorem C7_call_result_taxonomy :
    ∀ (v : Json) (message : String) (data : Json) (msg : String),
      handle_direct_function_result (.value v) = .ok (serializeJson v) ∧
      handle_direct_function_result (.convexError message data) =
        .error (.convexError (serializeJson data)) ∧
      handle_direct_function_result (.errorMessage msg) =
        .error (.serverError msg) := by
  intro v message data msg
  exact ⟨rfl, rfl, rfl⟩

/-- Claim C10: `AuthHandle::dispose` never raises: whether or not the
refresh loop already exited (receiver dropped), the send result is
discarded, so dispose returns normally — taking the sender out on first
use and doing nothing observable afterwards. This is the counterpart of
`SubscriptionHandle::cancel`, which unwraps the same send. -/
theorem C10_dispose_never_panics :
    ∀ h : AuthHandle,
      AuthHandle.dispose h =
        some (if h.senderPresent then ⟨false, h.receiverAlive⟩ else h) := by
  intro h
  rcases h with ⟨sp, ra⟩
  cases sp <;> cases ra <;> rfl

/-- Claim C2, counterexample: calling `cancel()` for the first time after
the subscription task has exited naturally (sender still present, receiver
dropped) panics — `sender.send(()).unwrap()` unwraps an `Err` — rather
than being a no-op that raises no error. -/
theorem C2_cancel_after_stream_end_panics :
    SubscriptionHandle.cancel ⟨true, false⟩ = none := rfl

/-- Claim C2, amended: calling `cancel()` a second time has no observable
effect and raises no error (the sender was already taken from the mutex);
but calling `cancel()` for the first time after the underlying stream has
ended naturally (the subscription task has exited, dropping the receiver)
panics, because the failed send is unwrapped. -/
theorem C2_cancel_idempotent_amended :
    (∀ h : SubscriptionHandle, h.senderPresent = false →
      SubscriptionHandle.cancel h = some h) ∧
    (∀ h : SubscriptionHandle, h.senderPresent = true →
      h.receiverAlive = false → SubscriptionHandle.cancel h = none) := by
  constructor
  · intro h hsp
    simp [SubscriptionHandle.cancel, hsp]
  · intro h hsp hra
    simp [SubscriptionHandle.cancel, oneshotSend, hsp, hra]

/-- Witness for the amended claim C2 at concrete handles: a handle whose
sender is already consumed (after the first cancel), and a handle whose
task has already exited. -/
theorem C2_cancel_idempotent_amended_witness :
    SubscriptionHandle.cancel ⟨false, true⟩ = some ⟨false, true⟩ ∧
    SubscriptionHandle.cancel ⟨true, false⟩ = none :=
  ⟨C2_cancel_idempotent_amended.1 ⟨false, true⟩ rfl,
   C2_cancel_idempotent_amended.2 ⟨true, false⟩ rfl rfl⟩

/-- Claim C1: the code contradicts the claimed invariant. In the run where
`fetch_token` returns `Some("t")` and `dispose()` is processed during the
following sleep, the loop clears the remote auth state and fires the
auth-change callback with `false`, yet never stores `false` into the
shared atomic (only the empty-fetch branch does), so after the dispose is
fully processed `is_authenticated()` still returns `true`. -/
theorem C1_dispose_leaves_flag_true :
    runAuthLoop ⟨false, false⟩ [⟨false, some "t", 0, true⟩] =
      (⟨true, true⟩,
       [.fetchStart, .setAuth (some "t"), .authChange true, .sleep 300,
        .setAuth none, .authChange false], true) ∧
    AuthHandle.is_authenticated
      (runAuthLoop ⟨false, false⟩ [⟨false, some "t", 0, true⟩]).1 = true := by
  constructor
  · decide
  · decide

/-- Claim C5: in any subscription-task iteration where a produced update
and the cancellation request are simultaneously ready, the update is
delivered via `on_update`/`on_error` and the task does not terminate at
that iteration — `select_biased!` polls the stream first, so no
already-produced update is dropped. -/
theorem C5_update_delivered_before_cancel :
    ∀ (r : FunctionResult) (it : SubIter) (rest : List SubIter),
      it.upd = some (some r) → it.cancelReady = true →
      runSubLoop (it :: rest) =
        (deliver r :: (runSubLoop rest).1, (runSubLoop rest).2) := by
  intro r it rest hupd _
  rcases it with ⟨u, c⟩
  simp only at hupd
  subst hupd
  simp [runSubLoop]

/-- Witness for claim C5: a server-error update and a cancellation ready in
the same evaluation; the error is delivered and the task lives on. -/
theorem C5_update_delivered_before_cancel_witness :
    runSubLoop [⟨some (some (.errorMessage "boom")), true⟩] =
      ([.onError "boom" none], false) :=
  C5_update_delivered_before_cancel (.errorMessage "boom")
    ⟨some (some (.errorMessage "boom")), true⟩ [] rfl rfl

/-- Claim C6: in the auth refresh loop, cancellation wins a simultaneous
race at both selects (`select_biased!` lists `cancel_fut` first): a
cancellation ready at the fetch select tears the loop down even if the
fetched token is also ready, and a cancellation arriving during the sleep
phase means no further token fetch, loop termination, and the auth-change
callback fired with `false`; it had previously fired with `true` in that
iteration exactly when the handle was not yet authenticated, so false
follows a prior true. -/
theorem C6_cancel_priority_in_auth_loop :
    ∀ (st : AuthState) (it : AuthIter) (rest : List AuthIter),
      (it.cancelAtFetch = true →
        runAuthLoop st (it :: rest) =
          (st,
           [.fetchStart, .setAuth none] ++
             (if st.wasAuthenticated then [.authChange false] else []),
           true)) ∧
      (∀ tok, it.cancelAtFetch = false → it.token = some tok →
        it.cancelAtSleep = true →
        runAuthLoop st (it :: rest) =
          (⟨true, if st.wasAuthenticated then st.isAuthenticated else true⟩,
           [.fetchStart, .setAuth (some tok)] ++
             (if st.wasAuthenticated then [] else [.authChange true]) ++
             [.sleep (sleepSecs tok it.now), .setAuth none, .authChange false],
           true)) := by
  intro st it rest
  rcases it with ⟨cf, tk, now, cs⟩
  constructor
  · intro hcf
    simp only at hcf
    subst hcf
    simp [runAuthLoop]
  · intro tok hcf htk hcs
    simp only at hcf htk hcs
    subst hcf; subst htk; subst hcs
    simp [runAuthLoop]

/-- Witness for claim C6: a fresh handle canceled at the fetch select with
a token simultaneously ready, and a fresh handle canceled during the
sleep after one token application. -/
theorem C6_cancel_priority_in_auth_loop_witness :
    runAuthLoop ⟨false, false⟩ [⟨true, some "t", 0, false⟩] =
      (⟨false, false⟩, [.fetchStart, .setAuth none], true) ∧
    runAuthLoop ⟨false, false⟩ [⟨false, some "u", 7, true⟩] =
      (⟨true, true⟩,
       [.fetchStart, .setAuth (some "u"), .authChange true, .sleep 300,
        .setAuth none, .authChange false], true) :=
  ⟨((C6_cancel_priority_in_auth_loop ⟨false, false⟩ ⟨true, some "t", 0, false⟩
      []).1 rfl).trans (by decide),
   ((C6_cancel_priority_in_auth_loop ⟨false, false⟩ ⟨false, some "u", 7, true⟩
      []).2 "u" rfl rfl rfl).trans (by decide)⟩

/-- Claim C4: after a successful fetch at time `now`, a token with a
decodable expiry `exp` schedules the next fetch after
`exp - 60 - now` seconds when `exp - 60` lies ahead of `now` and after the
5-second floor otherwise, and an undecodable token schedules it after the
fixed 300-second default. -/
theorem C4_refresh_scheduling :
    ∀ (token : String) (now exp : Nat),
      (decode_jwt_expiry token = some exp →
        sleepSecs token now =
          if exp - 60 > now then exp - 60 - now else 5) ∧
      (decode_jwt_expiry token = none → sleepSecs token now = 300) := by
  intro token now exp
  constructor
  · intro hdec
    simp [sleepSecs, hdec]
  · intro hdec
    simp [sleepSecs, hdec]

/-- Witness for claim C4, at `now = 1000000` with real tokens: a payload
with `exp = 1000500` wakes 440 seconds later (`now + 440`), a payload with
`exp = 1000010` hits the 5-second floor, and an undecodable token waits
the 300-second default. -/
theorem C4_refresh_scheduling_witness :
    decode_jwt_expiry "h.eyJleHAiOjEwMDA1MDB9.s" = some 1000500 ∧
    sleepSecs "h.eyJleHAiOjEwMDA1MDB9.s" 1000000 = 440 ∧
    decode_jwt_expiry "h.eyJleHAiOjEwMDAwMTB9.s" = some 1000010 ∧
    sleepSecs "h.eyJleHAiOjEwMDAwMTB9.s" 1000000 = 5 ∧
    decode_jwt_expiry "x.!.z" = none ∧
    sleepSecs "x.!.z" 1000000 = 300 :=
  ⟨by decide,
   ((C4_refresh_scheduling "h.eyJleHAiOjEwMDA1MDB9.s" 1000000 1000500).1
      (by decide)).trans (by decide),
   by decide,
   ((C4_refresh_scheduling "h.eyJleHAiOjEwMDAwMTB9.s" 1000000 1000010).1
      (by decide)).trans (by decide),
   by decide,
   (C4_refresh_scheduling "x.!.z" 1000000 0).2 (by decide)⟩

/-- Claim C8: `decode_jwt_expiry` is total by construction (it returns for
every input string) and returns `none` — routing the loop to the fixed
300-second default — whenever the token does not consist of exactly three
dot-separated segments, or the middle segment is not valid base64url, or
the decoded payload lacks a non-negative integer `exp` field. -/
theorem C8_decode_jwt_expiry_tolerant :
    ∀ token : String,
      ((splitDot token.data).length ≠ 3 → decode_jwt_expiry token = none) ∧
      (∀ hd p tl, splitDot token.data = [hd, p, tl] →
        b64urlDecode p = none → decode_jwt_expiry token = none) ∧
      (∀ hd p tl bytes, splitDot token.data = [hd, p, tl] →
        b64urlDecode p = some bytes → jwtExpOfBytes bytes = none →
        decode_jwt_expiry token = none) := by
  intro token
  refine ⟨?_, ?_, ?_⟩
  · intro hlen
    rcases hsp : splitDot token.data with _ | ⟨a, _ | ⟨b, _ | ⟨c, _ | ⟨d, l⟩⟩⟩⟩ <;>
      simp [decode_jwt_expiry, hsp]
    simp [hsp] at hlen
  · intro hd p tl hsp hdec
    simp [decode_jwt_expiry, hsp, hdec]
  · intro hd p tl bytes hsp hdec hexp
    simp [decode_jwt_expiry, hsp, hdec, hexp]

/-- Witness for claim C8 at concrete malformed tokens: one with a single
segment, one whose middle segment is not base64url, and one whose payload
decodes to a single byte that is not a JSON object with an `exp` field. -/
theorem C8_decode_jwt_expiry_tolerant_witness :
    decode_jwt_expiry "ab" = none ∧
    decode_jwt_expiry "x.!.z" = none ∧
    decode_jwt_expiry "h.AA.s" = none :=
  ⟨(C8_decode_jwt_expiry_tolerant "ab").1 (by decide),
   (C8_decode_jwt_expiry_tolerant "x.!.z").2.1 "x".data "!".data "z".data
     (by decide) (by decide),
   (C8_decode_jwt_expiry_tolerant "h.AA.s").2.2 "h".data "AA".data "s".data
     [0] (by decide) (by decide) (by decide)⟩

end ConvexFlutter
